import Mathlib

/-!
Verification of the chatgpt-cli request pipeline against its specification.

The definitions below are a shallow embedding of the Python source:

* scripts/chatgpt.py, wait_for_response (the UI convergence loop);
* scripts/api_client.py, solve_proof_of_work, prompt_chatgpt_api,
  chatgpt_api_prompt;
* scripts/chatgpt.py, main (prompt-mode transport routing);
* scripts/config.py, STABILITY_THRESHOLD.

External collaborators (the DOM evaluated through CDP, hashlib.sha3_512,
json.loads, the HTTP transport, cookie extraction) are modelled as explicit
inputs or function parameters; everything the Python source itself computes
is translated directly.
-/

/-- Python substring test: the check that a list occurs as a contiguous
sublist, used to model the operator x in y on strings. -/
def containsSeq (needle hay : List Char) : Bool :=
  match hay with
  | [] => needle.isEmpty
  | _ :: rest => needle.isPrefixOf hay || containsSeq needle rest

/-- Python x in y on strings (after both sides were lowercased by the
caller, as the source does). -/
def pyIn (needle hay : String) : Bool :=
  containsSeq needle.data hay.data

/-- ASCII lowering of one character; models Python str.lower for the
ASCII range, which is all the phrase checks of wait_for_response ever
compare against. -/
def asciiLowerChar (c : Char) : Char :=
  if 65 ≤ c.toNat ∧ c.toNat ≤ 90 then Char.ofNat (c.toNat + 32) else c

/-- Python str.lower, restricted to ASCII case mapping. -/
def pyLower (s : String) : String :=
  String.mk (s.data.map asciiLowerChar)

/-- Python str.strip with no argument: remove leading and trailing
whitespace (they agree on ASCII whitespace). -/
def pyStrip (s : String) : String :=
  String.mk
    (((s.data.dropWhile Char.isWhitespace).reverse.dropWhile
        Char.isWhitespace).reverse)

/-- Python s.startswith(prefix). -/
def pyStartsWith (pre s : String) : Bool :=
  pre.data.isPrefixOf s.data

/-- Python s[n:], dropping the first n characters. -/
def pyDropChars (n : Nat) (s : String) : String :=
  String.mk (s.data.drop n)

/-- config.py STABILITY_THRESHOLD: consecutive stable polls before the
response is considered complete. -/
def STABILITY_THRESHOLD : Nat := 3

/-- One polling tick of wait_for_response samples the page through five
CDP evaluations; those sampled values are the external input of a tick.
pageText is document.body.innerText (used for the rate-limit and failure
phrase checks), thinkingMatch is the result of the thinking-pattern probe
(the probe returns the matched number of seconds, 0 when only a bare
Thinking or Reasoning marker is present, and -1 when nothing matches),
responseText is the response text extracted by the two extraction methods
(empty when neither produced text), and finalText is what the secondary
assistant-message selector probe returns. -/
structure TickInput where
  pageText : String
  isGenerating : Bool
  thinkingMatch : Int
  responseText : String
  finalText : String
deriving DecidableEq, Repr

/-- The loop-carried state of wait_for_response: last_text, stable_count,
thinking_time and response_started, as initialised at the top of the
function. -/
structure WaitState where
  last_text : String
  stable_count : Nat
  thinking_time : Int
  response_started : Bool
deriving DecidableEq, Repr

/-- Initial state of wait_for_response. -/
def waitInit : WaitState :=
  { last_text := "", stable_count := 0, thinking_time := 0,
    response_started := false }

/-- Result of one iteration of the wait_for_response while-loop body:
rateLimited models the return of the empty string with -1, upstreamError
the return with -2, done a normal return of a response text and the
thinking time, and next the fall-through to the next poll. -/
inductive TickResult where
  | rateLimited : TickResult
  | upstreamError : TickResult
  | done (text : String) (thinking : Int) : TickResult
  | next (st : WaitState) : TickResult
deriving DecidableEq, Repr

/-- The running thinking-time value after the thinking-probe check of a
tick (chatgpt.py lines 717-718): a non-negative probe result overwrites
the stored value. -/
def tickThinking (st : WaitState) (inp : TickInput) : Int :=
  if inp.thinkingMatch ≥ 0 then inp.thinkingMatch else st.thinking_time

/-- The response_started flag after the thinking-probe check of the tick
(chatgpt.py lines 717-719); the flag is written but never read by the
rest of the function. -/
def tickStarted (st : WaitState) (inp : TickInput) : Bool :=
  if inp.thinkingMatch ≥ 0 then true else st.response_started

/-- One iteration of the wait_for_response while-loop body
(chatgpt.py lines 692-812), with the CDP evaluations replaced by the
sampled TickInput. Python str.strip is modelled by pyStrip and the
lowercasing by pyLower. -/
def waitTick (st : WaitState) (inp : TickInput) : TickResult :=
  if pyIn "rate limit" (pyLower inp.pageText)
      || pyIn "too many requests" (pyLower inp.pageText) then
    .rateLimited
  else if pyIn "something went wrong" (pyLower inp.pageText) then
    .upstreamError
  else
    if inp.responseText ≠ "" then
      if ¬ inp.isGenerating then
        if inp.responseText = st.last_text then
          if st.stable_count + 1 ≥ STABILITY_THRESHOLD then
            .done (pyStrip inp.responseText) (tickThinking st inp)
          else if inp.finalText ≠ "" then
            .done (pyStrip inp.finalText) (tickThinking st inp)
          else
            .next { last_text := st.last_text,
                    stable_count := st.stable_count + 1,
                    thinking_time := tickThinking st inp,
                    response_started := true }
        else
          if inp.finalText ≠ "" then
            .done (pyStrip inp.finalText) (tickThinking st inp)
          else
            .next { last_text := inp.responseText, stable_count := 0,
                    thinking_time := tickThinking st inp,
                    response_started := true }
      else
        .next { last_text := inp.responseText, stable_count := 0,
                thinking_time := tickThinking st inp,
                response_started := true }
    else
      .next { last_text := st.last_text, stable_count := st.stable_count,
              thinking_time := tickThinking st inp,
              response_started := tickStarted st inp }

/-- Overall outcome of wait_for_response on a finite sequence of polls:
either the loop stopped inside a tick, or the poll budget ran out and the
final line of the function returned the stripped last_text (the timeout
return of chatgpt.py line 814). -/
inductive WaitOutcome where
  | rateLimited : WaitOutcome
  | upstreamError : WaitOutcome
  | done (text : String) (thinking : Int) : WaitOutcome
  | timeout (text : String) (thinking : Int) : WaitOutcome
deriving DecidableEq, Repr

/-- wait_for_response as a fold of waitTick over the sampled poll inputs;
exhausting the list models the while-condition turning false. -/
def wait_for_response (st : WaitState) : List TickInput → WaitOutcome
  | [] =>
      .timeout (if st.last_text ≠ "" then (pyStrip st.last_text) else "")
        st.thinking_time
  | inp :: rest =>
      match waitTick st inp with
      | .rateLimited => .rateLimited
      | .upstreamError => .upstreamError
      | .done t th => .done t th
      | .next st1 => wait_for_response st1 rest

/-- A benign tick of the C1 scenario: the page shows only the sampled
text, no thinking pattern matches, and the secondary final-extraction
probe returns empty. -/
def plainTick (t : String) (g : Bool) : TickInput :=
  { pageText := t, isGenerating := g, thinkingMatch := -1,
    responseText := t, finalText := "" }

/-- The C1 scenario: sampled texts empty, Hello, Hello, Hello, Hello with
generation indicator on, on, off, off, off and an always-empty secondary
probe. -/
def c1Ticks : List TickInput :=
  [plainTick "" true, plainTick "Hello" true, plainTick "Hello" false,
   plainTick "Hello" false, plainTick "Hello" false]

/-- The counterexample ticks for C1: the first two polls are exactly the
claimed scenario, and on the third poll (the second Hello tick, sampled
text Hello, generation indicator off) the secondary assistant-message
probe of chatgpt.py lines 771-807 also sees the text Hello. -/
def c1CxTicks : List TickInput :=
  [plainTick "" true, plainTick "Hello" true,
   { pageText := "Hello", isGenerating := false, thinkingMatch := -1,
     responseText := "Hello", finalText := "Hello" }]

/-- Whether a loop outcome is a completion declaration. -/
def WaitOutcome.isDone : WaitOutcome → Bool
  | .done _ _ => true
  | _ => false

/-- Claim C1, counterexample: fed the claimed sampled-text and
generation-indicator sequences, the loop can declare completion with text
Hello already at the second Hello tick (the third tick overall), because
whenever the sampled text is non-empty and the generation indicator is
off the code probes the assistant-message selectors and returns that
text of that probe immediately, before the stability threshold is reached. The
claim constrains only the sampled text and the generation indicator, so
this run is an instance of the claimed scenario in which Done comes
earlier than the fourth Hello tick. -/
theorem c1_early_done_via_final_probe :
    wait_for_response waitInit c1CxTicks = .done "Hello" 0 ∧
    c1CxTicks.map (fun i => (i.responseText, i.isGenerating))
      = (c1Ticks.take 3).map (fun i => (i.responseText, i.isGenerating)) := by
  constructor
  · rfl
  · rfl

/-- Claim C1, amended: when additionally the secondary assistant-message
probe returns empty text on every poll, completion (Done with text Hello)
is declared exactly at the fourth Hello tick, after three consecutive
stable non-generating polls, and at no earlier tick: the loop run on any
strict prefix of the scenario never declares Done. -/
theorem c1_done_at_fourth_hello_tick :
    wait_for_response waitInit c1Ticks = .done "Hello" 0 ∧
    ∀ k, k < 5 →
      (wait_for_response waitInit (c1Ticks.take k)).isDone = false := by
  constructor
  · rfl
  · decide

/-- Claim C7: a poll tick whose generation indicator is on (a visible
stop button) never returns a final response text: both return sites that
produce a response text in wait_for_response are guarded by the
generation indicator being off. -/
theorem c7_no_done_while_generating (st : WaitState) (inp : TickInput)
    (h : inp.isGenerating = true) (t : String) (th : Int) :
    waitTick st inp ≠ .done t th := by
  intro hst
  unfold waitTick at hst
  repeat' split at hst
  all_goals simp_all

/-- Witness for c7_no_done_while_generating at a concrete stable state
whose text has been unchanged for many polls. -/
theorem c7_no_done_while_generating_witness :
    waitTick { last_text := "Hello", stable_count := 9, thinking_time := 0,
               response_started := true }
      { pageText := "Hello", isGenerating := true, thinkingMatch := -1,
        responseText := "Hello", finalText := "Hello" }
      ≠ .done "Hello" 0 :=
  c7_no_done_while_generating _ _ rfl _ _

/-- Claim C8, counterexample: after a tick whose thinking-pattern probe
matched 50 seconds, a later tick matching only 10 seconds overwrites the
stored thinking time downwards: chatgpt.py line 718 assigns the matched
value unconditionally, so the stored value decreases from 50 to 10. -/
theorem c8_thinking_time_decreases :
    (waitTick waitInit
      { pageText := "Thought for 50 seconds", isGenerating := true,
        thinkingMatch := 50, responseText := "", finalText := "" }
      = .next { last_text := "", stable_count := 0, thinking_time := 50,
                response_started := true }) ∧
    (waitTick { last_text := "", stable_count := 0, thinking_time := 50,
                response_started := true }
      { pageText := "Thought for 10 seconds", isGenerating := true,
        thinkingMatch := 10, responseText := "", finalText := "" }
      = .next { last_text := "", stable_count := 0, thinking_time := 10,
                response_started := true }) ∧
    (10 : Int) < 50 := by
  refine ⟨rfl, rfl, by norm_num⟩

/-- Claim C8, amended: the recorded thinking time is not monotone; it is
last-match-wins. On every tick whose thinking-pattern probe matches (a
non-negative value), the stored thinking time is overwritten with exactly
the matched value, whether the tick continues or completes, so a later
smaller match does decrease it. -/
theorem c8_thinking_overwrite (st : WaitState) (inp : TickInput)
    (h : inp.thinkingMatch ≥ 0) :
    (∀ st1, waitTick st inp = .next st1 →
        st1.thinking_time = inp.thinkingMatch) ∧
    (∀ t th, waitTick st inp = .done t th → th = inp.thinkingMatch) := by
  constructor
  · intro st1 hst
    unfold waitTick at hst
    repeat' split at hst
    all_goals try (injection hst with hst; subst hst)
    all_goals simp_all [tickThinking]
  · intro t th hst
    unfold waitTick at hst
    repeat' split at hst
    all_goals simp_all [tickThinking]

/-- Witness for c8_thinking_overwrite at a tick that matches 10 seconds
from a state holding 50. -/
theorem c8_thinking_overwrite_witness :
    (∀ st1,
        waitTick { last_text := "", stable_count := 0, thinking_time := 50,
                   response_started := true }
          { pageText := "", isGenerating := true, thinkingMatch := 10,
            responseText := "", finalText := "" } = .next st1 →
        st1.thinking_time = 10) ∧
    (∀ t th,
        waitTick { last_text := "", stable_count := 0, thinking_time := 50,
                   response_started := true }
          { pageText := "", isGenerating := true, thinkingMatch := 10,
            responseText := "", finalText := "" } = .done t th → th = 10) :=
  c8_thinking_overwrite _ _ (by norm_num)

/-- A value of the proof-of-work config array. The two counter slots hold
Python ints; every other slot (screen size, timestamp string, user agent,
uuid, performance floats, ...) is environment-supplied, so its compact
JSON serialisation is carried as an opaque byte list. -/
inductive JsonVal where
  | jint (n : Nat) : JsonVal
  | jraw (bs : List Nat) : JsonVal
deriving DecidableEq, Repr

/-- Decimal byte representation of a natural number: Python str(i)
encoded, the digits being ASCII. -/
def decBytes (n : Nat) : List Nat :=
  (Nat.repr n).data.map Char.toNat

/-- Bytes of the compact JSON serialisation of one config element;
json.dumps of a Python int is exactly str of that int. -/
def jsonValBytes : JsonVal → List Nat
  | .jint n => decBytes n
  | .jraw bs => bs

/-- Python str.join with a one-character separator, as used by
json.dumps with separators comma and colon between list elements. -/
def sepJoin : List (List Nat) → List Nat
  | [] => []
  | [x] => x
  | x :: y :: rest => x ++ [44] ++ sepJoin (y :: rest)

/-- Bytes of json.dumps of a list with separators comma and colon and
ensure_ascii False: an opening bracket, the comma-joined element
serialisations, a closing bracket (91, 44 and 93 are the byte values of
the brackets and the comma). -/
def dumpsList (l : List JsonVal) : List Nat :=
  [91] ++ sepJoin (l.map jsonValBytes) ++ [93]

/-- api_client.py line 232: part1 is json.dumps of config up to index 3
with the final character dropped, plus a comma, encoded. -/
def powPart1 (config : List JsonVal) : List Nat :=
  (dumpsList (config.take 3)).dropLast ++ [44]

/-- api_client.py line 233: part2 is a comma, json.dumps of config
indices 4 to 8 with the first and last characters dropped, and a comma,
encoded. -/
def powPart2 (config : List JsonVal) : List Nat :=
  [44] ++ (((dumpsList ((config.drop 4).take 5)).drop 1).dropLast) ++ [44]

/-- api_client.py line 234: part3 is a comma plus json.dumps of config
from index 10 with the first character dropped, encoded. -/
def powPart3 (config : List JsonVal) : List Nat :=
  [44] ++ (dumpsList (config.drop 10)).drop 1

/-- The byte values of the base64 alphabet. -/
def b64Alphabet : List Nat :=
  "ABCDEFGHIJKLMNOPQRSTUVWXYZabcdefghijklmnopqrstuvwxyz0123456789+/".data.map
    Char.toNat

/-- Byte value of the base64 alphabet character at an index below 64. -/
def b64Char (n : Nat) : Nat :=
  b64Alphabet.getD n 0

/-- Standard base64 of a byte list (Python base64.b64encode), emitted as
the byte values of the encoded characters; 61 is the pad character. -/
def b64Encode : List Nat → List Nat
  | [] => []
  | [a] => [b64Char (a / 4), b64Char (a % 4 * 16), 61, 61]
  | [a, b] => [b64Char (a / 4), b64Char (a % 4 * 16 + b / 16),
               b64Char (b % 16 * 4), 61]
  | a :: b :: c :: rest =>
      [b64Char (a / 4), b64Char (a % 4 * 16 + b / 16),
       b64Char (b % 16 * 4 + c / 64), b64Char (c % 64)] ++ b64Encode rest

/-- Python bytes.decode on ASCII bytes: the string whose characters are
the byte values. -/
def asciiStr (bs : List Nat) : String :=
  String.mk (bs.map Char.ofNat)

/-- Python bytes comparison a ≤ b: lexicographic, byte for byte, most
significant first; a shorter sequence that is a prefix of the longer one
compares as smaller. -/
def lexLe : List Nat → List Nat → Bool
  | [], _ => true
  | _ :: _, [] => false
  | a :: as, b :: bs =>
      if a < b then true else if b < a then false else lexLe as bs

/-- Value of one hex digit. -/
def hexDigitVal (c : Char) : Option Nat :=
  if 48 ≤ c.toNat ∧ c.toNat ≤ 57 then some (c.toNat - 48)
  else if 97 ≤ c.toNat ∧ c.toNat ≤ 102 then some (c.toNat - 87)
  else if 65 ≤ c.toNat ∧ c.toNat ≤ 70 then some (c.toNat - 55)
  else none

/-- Decode the digit pairs of a hex string into bytes; an odd digit count
or a non-hex character fails. -/
def hexPairs : List Char → Option (List Nat)
  | [] => some []
  | [_] => none
  | a :: b :: rest =>
      match hexDigitVal a, hexDigitVal b, hexPairs rest with
      | some x, some y, some tl => some ((16 * x + y) :: tl)
      | _, _, _ => none

/-- Python bytes.fromhex: ASCII whitespace is skipped, then digit pairs
are decoded; failure models the ValueError the source would raise on a
malformed difficulty. -/
def hexDecode (s : String) : Option (List Nat) :=
  hexPairs (s.data.filter (fun c => !c.isWhitespace))

/-- api_client.py line 168: the iteration ceiling of the solver. -/
def _POW_MAX_ITERATIONS : Nat := 500000

/-- The assembled per-iteration base64 payload for counter value i: the
three precomputed parts spliced with str(i) and str(i shifted right by
one), then base64-encoded (api_client.py lines 238-242). -/
def powPayload (config : List JsonVal) (i : Nat) : List Nat :=
  b64Encode (powPart1 config ++ decBytes i ++ powPart2 config
    ++ decBytes (i >>> 1) ++ powPart3 config)

/-- The search loop of solve_proof_of_work (api_client.py lines
236-247), with the SHA3-512 digest function as an explicit parameter and
an explicit fuel counting the remaining iterations. -/
def powLoop (hash : List Nat → List Nat)
    (seedBytes p1 p2 p3 target : List Nat) : Nat → Nat → Option String
  | _, 0 => none
  | i, fuel + 1 =>
      if lexLe ((hash (seedBytes ++ b64Encode (p1 ++ decBytes i ++ p2
            ++ decBytes (i >>> 1) ++ p3))).take target.length) target then
        some ("gAAAAAB" ++ asciiStr (b64Encode (p1 ++ decBytes i ++ p2
          ++ decBytes (i >>> 1) ++ p3)))
      else
        powLoop hash seedBytes p1 p2 p3 target (i + 1) fuel

/-- api_client.py solve_proof_of_work: decode the difficulty, precompute
the three JSON parts from the config array, then search counter values 0
up to the ceiling. The outer none models the ValueError that
bytes.fromhex would raise; the inner Option is the return value of the
Python function (a token string or None when unsolved). The config array
and the digest function are the environment-supplied parts
(random/time-dependent values and hashlib.sha3_512). -/
def solve_proof_of_work (hash : List Nat → List Nat)
    (config : List JsonVal) (seedBytes : List Nat)
    (difficulty : String) : Option (Option String) :=
  match hexDecode difficulty with
  | none => none
  | some target =>
      some (powLoop hash seedBytes (powPart1 config) (powPart2 config)
        (powPart3 config) target 0 _POW_MAX_ITERATIONS)

/-- If the search loop returns a token, some counter value k within the
fuel window satisfied the difficulty comparison and the token is the
fixed literal prefix plus the decoded base64 payload of k. -/
theorem powLoop_some (hash : List Nat → List Nat)
    (seedBytes p1 p2 p3 target : List Nat) :
    ∀ fuel i tok,
      powLoop hash seedBytes p1 p2 p3 target i fuel = some tok →
      ∃ k, i ≤ k ∧ k < i + fuel ∧
        lexLe ((hash (seedBytes ++ b64Encode (p1 ++ decBytes k ++ p2
            ++ decBytes (k >>> 1) ++ p3))).take target.length) target
          = true ∧
        tok = "gAAAAAB" ++ asciiStr (b64Encode (p1 ++ decBytes k ++ p2
          ++ decBytes (k >>> 1) ++ p3)) := by
  intro fuel
  induction fuel with
  | zero =>
      intro i tok h
      simp [powLoop] at h
  | succ n ih =>
      intro i tok h
      rw [powLoop] at h
      split at h
      · exact ⟨i, le_refl i, by omega, by assumption,
          by injection h with h1; rw [← h1]⟩
      · obtain ⟨k, hk0, hk1, hc, he⟩ := ih (i + 1) tok h
        exact ⟨k, by omega, by omega, hc, he⟩

/-- If no counter value in the fuel window satisfies the difficulty
comparison, the search loop returns none. -/
theorem powLoop_none (hash : List Nat → List Nat)
    (seedBytes p1 p2 p3 target : List Nat) :
    ∀ fuel i,
      (∀ k, i ≤ k → k < i + fuel →
        lexLe ((hash (seedBytes ++ b64Encode (p1 ++ decBytes k ++ p2
            ++ decBytes (k >>> 1) ++ p3))).take target.length) target
          = false) →
      powLoop hash seedBytes p1 p2 p3 target i fuel = none := by
  intro fuel
  induction fuel with
  | zero => intro i _; rw [powLoop]
  | succ n ih =>
      intro i hall
      rw [powLoop]
      rw [if_neg]
      · exact ih (i + 1) (fun k hk0 hk1 => hall k (by omega) (by omega))
      · intro hc
        have := hall i (le_refl i) (by omega)
        rw [this] at hc
        exact Bool.false_ne_true hc

/-- Claim C2: for every digest function, config array, seed and
well-formed hex difficulty, solve_proof_of_work returns without error,
and: a returned token is the literal prefix gAAAAAB followed by the
base64 payload of some counter value below 500000 whose digest of seed
bytes plus payload bytes has its leading len(difficulty-bytes) bytes at
most the difficulty bytes; while if no counter value below 500000
satisfies the comparison, the result is None (unsolved), not an
error. -/
theorem c2_solve_pow (hash : List Nat → List Nat) (config : List JsonVal)
    (seedBytes : List Nat) (difficulty : String) (target : List Nat)
    (h : hexDecode difficulty = some target) :
    ∃ res, solve_proof_of_work hash config seedBytes difficulty = some res ∧
      (∀ tok, res = some tok →
        ∃ i, i < _POW_MAX_ITERATIONS ∧
          tok = "gAAAAAB" ++ asciiStr (powPayload config i) ∧
          lexLe ((hash (seedBytes ++ powPayload config i)).take
            target.length) target = true) ∧
      ((∀ i, i < _POW_MAX_ITERATIONS →
          lexLe ((hash (seedBytes ++ powPayload config i)).take
            target.length) target = false) →
        res = none) := by
  refine ⟨powLoop hash seedBytes (powPart1 config) (powPart2 config)
    (powPart3 config) target 0 _POW_MAX_ITERATIONS, ?_, ?_, ?_⟩
  · rw [solve_proof_of_work, h]
  · intro tok htok
    obtain ⟨k, hk0, hk1, hc, he⟩ :=
      powLoop_some hash seedBytes (powPart1 config) (powPart2 config)
        (powPart3 config) target _POW_MAX_ITERATIONS 0 tok htok
    exact ⟨k, by omega, by rw [he, powPayload], by rw [powPayload]; exact hc⟩
  · intro hall
    exact powLoop_none hash seedBytes (powPart1 config) (powPart2 config)
      (powPart3 config) target _POW_MAX_ITERATIONS 0
      (fun k _ hk1 => by
        have := hall k (by omega)
        rw [powPayload] at this
        exact this)

/-- Witness for c2_solve_pow: difficulty ff decodes to the single byte
255, and with an empty config, empty seed and the constant empty digest
the theorem applies. -/
theorem c2_solve_pow_witness :
    hexDecode "ff" = some [255] ∧
    (∃ res, solve_proof_of_work (fun _ => []) [] [] "ff" = some res ∧
      (∀ tok, res = some tok →
        ∃ i, i < _POW_MAX_ITERATIONS ∧
          tok = "gAAAAAB" ++ asciiStr (powPayload [] i) ∧
          lexLe (((fun _ => ([] : List Nat)) ([] ++ powPayload [] i)).take
            [255].length) [255] = true) ∧
      ((∀ i, i < _POW_MAX_ITERATIONS →
          lexLe (((fun _ => ([] : List Nat)) ([] ++ powPayload [] i)).take
            [255].length) [255] = false) →
        res = none)) :=
  ⟨by decide, c2_solve_pow (fun _ => []) [] [] "ff" [255] (by decide)⟩

/-- Shape of the serialised list with the opening bracket dropped from
the end: used to relate the three spliced parts to the whole
serialisation. -/
theorem dumpsList_dropLast (l : List JsonVal) :
    (dumpsList l).dropLast = 91 :: sepJoin (l.map jsonValBytes) := by
  rw [dumpsList]
  rw [show ([91] ++ sepJoin (l.map jsonValBytes) ++ [93]
      : List Nat) = (91 :: sepJoin (l.map jsonValBytes)) ++ [93] by simp]
  exact List.dropLast_concat

/-- Shape of the serialised list with the opening bracket dropped. -/
theorem dumpsList_drop_one (l : List JsonVal) :
    (dumpsList l).drop 1 = sepJoin (l.map jsonValBytes) ++ [93] := by
  rw [dumpsList]
  rfl

/-- Shape of the serialised list with both brackets dropped. -/
theorem dumpsList_inner (l : List JsonVal) :
    ((dumpsList l).drop 1).dropLast = sepJoin (l.map jsonValBytes) := by
  rw [dumpsList_drop_one]
  exact List.dropLast_concat

/-- Claim C10: for every counter value i below the iteration ceiling and
every 15-element config array, the per-iteration byte string assembled
from the three precomputed parts spliced with str(i) and str(i shifted
right by one) equals the compact JSON serialisation of the whole config
array with i substituted at index 3 and the shifted value at index 9:
the splicing optimisation coincides with the naive whole-structure
encoding. -/
theorem c10_splice_equiv (i : Nat) (_hi : i < _POW_MAX_ITERATIONS)
    (e0 e1 e2 e3 e4 e5 e6 e7 e8 e9 e10 e11 e12 e13 e14 : JsonVal) :
    powPart1 [e0, e1, e2, e3, e4, e5, e6, e7, e8, e9,
              e10, e11, e12, e13, e14]
        ++ decBytes i
        ++ powPart2 [e0, e1, e2, e3, e4, e5, e6, e7, e8, e9,
                     e10, e11, e12, e13, e14]
        ++ decBytes (i >>> 1)
        ++ powPart3 [e0, e1, e2, e3, e4, e5, e6, e7, e8, e9,
                     e10, e11, e12, e13, e14]
      = dumpsList (([e0, e1, e2, e3, e4, e5, e6, e7, e8, e9,
                     e10, e11, e12, e13, e14].set 3 (.jint i)).set 9
          (.jint (i >>> 1))) := by
  rw [powPart1, powPart2, powPart3]
  rw [show ([e0, e1, e2, e3, e4, e5, e6, e7, e8, e9,
      e10, e11, e12, e13, e14] : List JsonVal).take 3 = [e0, e1, e2] by rfl]
  rw [show (([e0, e1, e2, e3, e4, e5, e6, e7, e8, e9,
      e10, e11, e12, e13, e14] : List JsonVal).drop 4).take 5
      = [e4, e5, e6, e7, e8] by rfl]
  rw [show ([e0, e1, e2, e3, e4, e5, e6, e7, e8, e9,
      e10, e11, e12, e13, e14] : List JsonVal).drop 10
      = [e10, e11, e12, e13, e14] by rfl]
  rw [show (([e0, e1, e2, e3, e4, e5, e6, e7, e8, e9,
      e10, e11, e12, e13, e14].set 3 (JsonVal.jint i)).set 9
        (JsonVal.jint (i >>> 1)))
      = [e0, e1, e2, .jint i, e4, e5, e6, e7, e8, .jint (i >>> 1),
         e10, e11, e12, e13, e14] by rfl]
  rw [dumpsList_dropLast, dumpsList_inner, dumpsList_drop_one]
  simp [dumpsList, sepJoin, jsonValBytes, decBytes]

/-- Witness for c10_splice_equiv at counter value 12345 and a config of
fifteen empty opaque slots. -/
theorem c10_splice_equiv_witness :
    powPart1 [JsonVal.jraw [], .jraw [], .jraw [], .jraw [], .jraw [],
              .jraw [], .jraw [], .jraw [], .jraw [], .jraw [],
              .jraw [], .jraw [], .jraw [], .jraw [], .jraw []]
        ++ decBytes 12345
        ++ powPart2 [JsonVal.jraw [], .jraw [], .jraw [], .jraw [],
                     .jraw [], .jraw [], .jraw [], .jraw [], .jraw [],
                     .jraw [], .jraw [], .jraw [], .jraw [], .jraw [],
                     .jraw []]
        ++ decBytes (12345 >>> 1)
        ++ powPart3 [JsonVal.jraw [], .jraw [], .jraw [], .jraw [],
                     .jraw [], .jraw [], .jraw [], .jraw [], .jraw [],
                     .jraw [], .jraw [], .jraw [], .jraw [], .jraw [],
                     .jraw []]
      = dumpsList (([JsonVal.jraw [], .jraw [], .jraw [], .jraw [],
                     .jraw [], .jraw [], .jraw [], .jraw [], .jraw [],
                     .jraw [], .jraw [], .jraw [], .jraw [], .jraw [],
                     .jraw []].set 3 (.jint 12345)).set 9
          (.jint (12345 >>> 1))) :=
  c10_splice_equiv 12345 (by decide) (JsonVal.jraw []) (.jraw [])
    (.jraw []) (.jraw []) (.jraw []) (.jraw []) (.jraw []) (.jraw [])
    (.jraw []) (.jraw []) (.jraw []) (.jraw []) (.jraw []) (.jraw [])
    (.jraw [])

/-- A Python value as it appears in the result dicts of api_client.py:
strings, naturals (status codes, token counts, durations), ints
(thinking time), booleans, None and nested dicts. -/
inductive PyVal where
  | pystr (s : String) : PyVal
  | pynat (n : Nat) : PyVal
  | pyint (n : Int) : PyVal
  | pybool (b : Bool) : PyVal
  | pynone : PyVal
  | pydict (l : List (String × PyVal)) : PyVal

/-- A Python dict with string keys, as an association list in insertion
order (the source never writes the same key twice). -/
abbrev PyDict := List (String × PyVal)

/-- Python truthiness of a value: empty strings, zero, False, None and
empty dicts are falsy. -/
def pyTruthy : PyVal → Bool
  | .pystr s => s ≠ ""
  | .pynat n => n ≠ 0
  | .pyint n => n ≠ 0
  | .pybool b => b
  | .pynone => false
  | .pydict l => !l.isEmpty

/-- Truthiness of a dict lookup, modelling d.get(key) tests: a missing
key is None, hence falsy. -/
def getTruthy (d : PyDict) (key : String) : Bool :=
  match d.lookup key with
  | some v => pyTruthy v
  | none => false

/-- Truthiness of an optional string, modelling Python tests on values
that are either absent (None) or a string. -/
def optTruthy : Option String → Bool
  | some s => s ≠ ""
  | none => false

/-- One element of the parts array of an SSE message snapshot: a string
part or a part of some other JSON type (the source checks
isinstance(parts[0], str)). -/
inductive SSEPart where
  | pstr (s : String) : SSEPart
  | pother : SSEPart
deriving DecidableEq, Repr

/-- A successfully json.loads-ed SSE event, holding exactly the fields
prompt_chatgpt_api reads: message.content.parts, conversation_id,
message.metadata.is_reasoning, message.metadata.reasoning_duration and
error. The error field carries the rendered error message (the source
renders a non-string error with json.dumps); truthiness of the raw value
is modelled as the message being present and non-empty. -/
structure SSEEvent where
  parts : List SSEPart
  conversation_id : Option String
  is_reasoning : Bool
  reasoning_duration : Option Int
  error : Option String
deriving DecidableEq, Repr

/-- The accumulator of the SSE loop of prompt_chatgpt_api: the latest
response text, the running thinking time and the captured conversation
identifier. -/
structure StreamState where
  response_text : String
  thinking_time : Int
  conversation_id : Option String
deriving DecidableEq, Repr

/-- Initial accumulator (api_client.py lines 382-384), with the
conversation identifier from the caller. -/
def streamInit (cid : Option String) : StreamState :=
  { response_text := "", thinking_time := 0, conversation_id := cid }

/-- Processing of one parsed SSE event (api_client.py lines 444-471):
update the response text from the first string part, capture the
conversation identifier while none is held, let a truthy
reasoning_duration overwrite the thinking time when is_reasoning is set,
and finally abort the whole call when the event carries a truthy error
field. -/
def procEvent (st : StreamState) (ev : SSEEvent) : Except String StreamState :=
  let st1 :=
    match ev.parts with
    | .pstr s :: _ => { st with response_text := s }
    | _ => st
  let st2 :=
    if ¬ optTruthy st1.conversation_id then
      { st1 with conversation_id := ev.conversation_id }
    else st1
  let st3 :=
    if ev.is_reasoning then
      match ev.reasoning_duration with
      | some n => if n ≠ 0 then { st2 with thinking_time := n } else st2
      | none => st2
    else st2
  match ev.error with
  | some e =>
      if e ≠ "" then .error ("ChatGPT error: " ++ e) else .ok st3
  | none => .ok st3

/-- The SSE line loop of prompt_chatgpt_api (api_client.py lines
429-471), parameterised by json.loads: lines without the data marker are
skipped, the DONE terminator stops consumption, frames that fail to
parse are skipped, and an event with a truthy error aborts with the
rendered error message. Exhausting the list models the stream closing
without a terminator. -/
def processLines (parse : String → Option SSEEvent) :
    StreamState → List String → Except String StreamState
  | st, [] => .ok st
  | st, line :: rest =>
      if ¬ pyStartsWith "data: " line then processLines parse st rest
      else
        if pyDropChars 6 line = "[DONE]" then .ok st
        else
          match parse (pyDropChars 6 line) with
          | none => processLines parse st rest
          | some ev =>
              match procEvent st ev with
              | .error e => .error e
              | .ok st1 => processLines parse st1 rest

/-- Outcome of the streaming POST, the transport being external: a
non-200 status with its body, or a 200 whose stream delivered the given
lines, with timedOut true when httpx raised TimeoutException after those
lines were consumed, or a connection failure. -/
inductive StreamOutcome where
  | status (code : Nat) (body : String) : StreamOutcome
  | stream (lines : List String) (timedOut : Bool) : StreamOutcome
  | connectError (msg : String) : StreamOutcome

/-- api_client.py prompt_chatgpt_api after the payload build: the result
dict as a function of the prompt, resolved model slug, timeout, caller
conversation id, elapsed seconds (wall clock, external) and the
transport outcome. Status codes 401, 403 and 429 and other non-200 codes
return their error dicts; on a 200 the SSE loop runs, a truthy error
event aborts, a timeout with no accumulated text returns the Timeout
failure, empty accumulated text returns the EmptyResponse failure, and
otherwise the success dict is built with the length-based token
estimates. -/
def prompt_chatgpt_api (parse : String → Option SSEEvent)
    (prompt modelSlug : String) (timeout : Nat) (cid : Option String)
    (totalTime : Nat) (outcome : StreamOutcome) : PyDict :=
  match outcome with
  | .status 401 _ =>
      [("success", .pybool false),
       ("error", .pystr "Authentication expired. Re-extract cookies."),
       ("status_code", .pynat 401)]
  | .status 403 body =>
      [("success", .pybool false),
       ("error", .pystr ("Access denied (403). May need sentinel token or cookies expired. Body: "
         ++ body.take 200)),
       ("status_code", .pynat 403)]
  | .status 429 _ =>
      [("success", .pybool false),
       ("error", .pystr "Rate limit reached. Wait before trying again."),
       ("rate_limited", .pybool true),
       ("status_code", .pynat 429)]
  | .status code body =>
      [("success", .pybool false),
       ("error", .pystr ("API error " ++ toString code ++ ": "
         ++ body.take 500)),
       ("status_code", .pynat code)]
  | .connectError msg =>
      [("success", .pybool false),
       ("error", .pystr ("Connection failed: " ++ msg))]
  | .stream ls timedOut =>
      match processLines parse (streamInit cid) ls with
      | .error e =>
          [("success", .pybool false), ("error", .pystr e)]
      | .ok st =>
          if timedOut ∧ st.response_text = "" then
            [("success", .pybool false),
             ("error", .pystr ("Timeout after " ++ toString timeout
               ++ "s waiting for response"))]
          else if st.response_text = "" then
            [("success", .pybool false),
             ("error", .pystr "Empty response from API")]
          else
            [("success", .pybool true),
             ("response", .pystr st.response_text),
             ("prompt", .pystr prompt),
             ("model", .pystr modelSlug),
             ("mode", .pystr "api"),
             ("thinking_time_seconds",
               if st.thinking_time > 0 then .pyint st.thinking_time
               else .pynone),
             ("total_time_seconds", .pynat totalTime),
             ("conversation_id",
               match st.conversation_id with
               | some s => .pystr s
               | none => .pynone),
             ("tokens", .pydict
               [("response", .pynat (max 1 (st.response_text.length / 4))),
                ("prompt", .pynat (max 1 (prompt.length / 4))),
                ("total", .pynat (max 1 (st.response_text.length / 4)
                  + max 1 (prompt.length / 4)))])]

/-- A concrete stand-in for json.loads used in closed runs: exactly the
payload VALID parses, to an event whose message text is Hi; every other
payload is malformed. -/
def cxParse : String → Option SSEEvent := fun s =>
  if s = "VALID" then
    some { parts := [.pstr "Hi"], conversation_id := none,
           is_reasoning := false, reasoning_duration := none, error := none }
  else none

/-- Claim C3, counterexample: a streaming POST that times out after one
valid frame accumulated the text Hi returns a success result that is
byte-for-byte identical to the result of a clean, terminated stream with
the same frame: there is no truncated indicator in the result record (no
such key exists), so the claimed explicit indicator is absent. The only
cut-short note the source emits is a verbose stderr log line. -/
theorem c3_no_truncated_indicator :
    prompt_chatgpt_api cxParse "p" "m" 5 none 7 (.stream ["data: VALID"] true)
      = prompt_chatgpt_api cxParse "p" "m" 5 none 7
          (.stream ["data: VALID", "data: [DONE]"] false) ∧
    (prompt_chatgpt_api cxParse "p" "m" 5 none 7
        (.stream ["data: VALID"] true)).lookup "truncated" = none ∧
    (prompt_chatgpt_api cxParse "p" "m" 5 none 7
        (.stream ["data: VALID"] true)).lookup "success"
      = some (.pybool true) ∧
    (prompt_chatgpt_api cxParse "p" "m" 5 none 7
        (.stream ["data: VALID"] true)).lookup "response"
      = some (.pystr "Hi") :=
  ⟨rfl, rfl, rfl, rfl⟩

/-- Claim C3, amended: if the streaming POST times out after non-empty
text accumulated, the call returns a success result carrying that
partial text, but with no truncated indicator: the record is identical
to the one a normally terminated stream would produce, and it has no
truncated key; if no text had accumulated, the call returns the Timeout
failure. -/
theorem c3_timeout_best_effort (parse : String → Option SSEEvent)
    (prompt modelSlug : String) (timeout : Nat) (cid : Option String)
    (totalTime : Nat) (ls : List String) (st : StreamState)
    (hok : processLines parse (streamInit cid) ls = .ok st) :
    (st.response_text ≠ "" →
      prompt_chatgpt_api parse prompt modelSlug timeout cid totalTime
          (.stream ls true)
        = prompt_chatgpt_api parse prompt modelSlug timeout cid totalTime
          (.stream ls false) ∧
      (prompt_chatgpt_api parse prompt modelSlug timeout cid totalTime
          (.stream ls true)).lookup "success" = some (.pybool true) ∧
      (prompt_chatgpt_api parse prompt modelSlug timeout cid totalTime
          (.stream ls true)).lookup "response"
        = some (.pystr st.response_text) ∧
      (prompt_chatgpt_api parse prompt modelSlug timeout cid totalTime
          (.stream ls true)).lookup "truncated" = none) ∧
    (st.response_text = "" →
      prompt_chatgpt_api parse prompt modelSlug timeout cid totalTime
          (.stream ls true)
        = [("success", .pybool false),
           ("error", .pystr ("Timeout after " ++ toString timeout
             ++ "s waiting for response"))]) := by
  constructor
  · intro hne
    refine ⟨?_, ?_, ?_, ?_⟩
    · simp only [prompt_chatgpt_api, hok]
      simp [hne]
    · simp only [prompt_chatgpt_api, hok]
      rw [if_neg (by simp [hne]), if_neg hne]
      simp [List.lookup]
    · simp only [prompt_chatgpt_api, hok]
      rw [if_neg (by simp [hne]), if_neg hne]
      simp [List.lookup]
    · simp only [prompt_chatgpt_api, hok]
      rw [if_neg (by simp [hne]), if_neg hne]
      simp [List.lookup]
  · intro heq
    simp only [prompt_chatgpt_api, hok]
    simp [heq]

/-- Witness for c3_timeout_best_effort on a one-frame stream accumulating
the text Hi. -/
theorem c3_timeout_best_effort_witness :
    (("Hi" : String) ≠ "" →
      prompt_chatgpt_api cxParse "p" "m" 5 none 7
          (.stream ["data: VALID"] true)
        = prompt_chatgpt_api cxParse "p" "m" 5 none 7
          (.stream ["data: VALID"] false) ∧
      (prompt_chatgpt_api cxParse "p" "m" 5 none 7
          (.stream ["data: VALID"] true)).lookup "success"
        = some (.pybool true) ∧
      (prompt_chatgpt_api cxParse "p" "m" 5 none 7
          (.stream ["data: VALID"] true)).lookup "response"
        = some (.pystr "Hi") ∧
      (prompt_chatgpt_api cxParse "p" "m" 5 none 7
          (.stream ["data: VALID"] true)).lookup "truncated" = none) ∧
    (("Hi" : String) = "" →
      prompt_chatgpt_api cxParse "p" "m" 5 none 7
          (.stream ["data: VALID"] true)
        = [("success", .pybool false),
           ("error", .pystr ("Timeout after " ++ toString 5
             ++ "s waiting for response"))]) :=
  c3_timeout_best_effort cxParse "p" "m" 5 none 7 ["data: VALID"]
    { response_text := "Hi", thinking_time := 0, conversation_id := none }
    rfl

/-- Whatever else a parsed event carries, processing an event whose
parts begin with a string part and whose error field is absent succeeds
and stores that string as the response text. -/
theorem procEvent_text (st : StreamState) (ev : SSEEvent) (s : String)
    (restParts : List SSEPart) (hp : ev.parts = .pstr s :: restParts)
    (he : ev.error = none) :
    ∃ st3, procEvent st ev = .ok st3 ∧ st3.response_text = s := by
  simp only [procEvent, hp, he]
  refine ⟨_, rfl, ?_⟩
  repeat' split
  all_goals rfl

/-- Claim C6: a line without the data marker never changes the
accumulated state (the loop continues on the rest of the stream with the
same state), and a marked frame whose payload does not parse is skipped
without aborting: feeding a valid frame, then a malformed frame, then
the terminator succeeds with exactly the text of the valid frame. -/
theorem c6_sse_robustness (parse : String → Option SSEEvent) :
    (∀ st line rest, pyStartsWith "data: " line = false →
      processLines parse st (line :: rest) = processLines parse st rest) ∧
    (∀ vline mline ev s restParts cid,
      pyStartsWith "data: " vline = true →
      pyDropChars 6 vline ≠ "[DONE]" →
      parse (pyDropChars 6 vline) = some ev →
      ev.parts = SSEPart.pstr s :: restParts →
      ev.error = none →
      pyStartsWith "data: " mline = true →
      parse (pyDropChars 6 mline) = none →
      ∃ st, processLines parse (streamInit cid)
          [vline, mline, "data: [DONE]"] = .ok st ∧
        st.response_text = s) := by
  constructor
  · intro st line rest h
    rw [processLines, if_pos (by simp [h])]
  · intro vline mline ev s restParts cid hv hvd hparse hparts herr hm hmparse
    rw [processLines, if_neg (by simp [hv]), if_neg hvd, hparse]
    obtain ⟨st3, hpe, hrt⟩ :=
      procEvent_text (streamInit cid) ev s restParts hparts herr
    simp only [hpe]
    by_cases hd : pyDropChars 6 mline = "[DONE]"
    · rw [processLines, if_neg (by simp [hm]), if_pos hd]
      exact ⟨st3, rfl, hrt⟩
    · rw [processLines, if_neg (by simp [hm]), if_neg hd, hmparse]
      rw [processLines, if_neg (by decide), if_pos (by decide)]
      exact ⟨st3, rfl, hrt⟩

/-- Witness for c6_sse_robustness: a whitespace line is ignored, and
the round trip of a valid frame, a junk frame and the terminator ends
with the text of the valid frame. -/
theorem c6_sse_robustness_witness :
    processLines cxParse (streamInit none) ["hello", "data: [DONE]"]
      = processLines cxParse (streamInit none) ["data: [DONE]"] ∧
    (∃ st, processLines cxParse (streamInit none)
        ["data: VALID", "data: junk", "data: [DONE]"] = .ok st ∧
      st.response_text = "Hi") :=
  ⟨(c6_sse_robustness cxParse).1 (streamInit none) "hello"
      ["data: [DONE]"] (by decide),
   (c6_sse_robustness cxParse).2 "data: VALID" "data: junk"
     { parts := [.pstr "Hi"], conversation_id := none,
       is_reasoning := false, reasoning_duration := none, error := none }
     "Hi" [] none (by decide) (by decide) rfl rfl rfl (by decide) rfl⟩

/-- The proofofwork descriptor of a requirements response: the required
flag, seed and difficulty, with the empty-string defaults the source
applies via dict.get. -/
structure PowInfo where
  required : Bool
  seed : String
  difficulty : String
deriving DecidableEq, Repr

/-- The outcome of get_chat_requirements as the chain reads it: the
success flag, the token field and the proofofwork descriptor (none
models an absent or empty descriptor, which is falsy). -/
structure ReqOutcome where
  success : Bool
  token : Option String
  proofofwork : Option PowInfo
deriving DecidableEq, Repr

/-- The outcome of get_access_token as the chain reads it: a bearer
token on success, otherwise the error message the auth step reported. -/
inductive AuthOutcome where
  | ok (access_token : String) : AuthOutcome
  | err (msg : String) : AuthOutcome
deriving DecidableEq, Repr

/-- Step 3 of chatgpt_api_prompt (api_client.py lines 570-584): the
requirements token is taken only from a successful requirements response
with a truthy token, and the challenge is solved only when the
proofofwork descriptor is truthy and flags required; an unsolved
challenge leaves the proof token absent without failing. -/
def chainTokens (req : ReqOutcome)
    (solvePow : String → String → Option String) :
    Option String × Option String :=
  if req.success ∧ optTruthy req.token then
    (req.token,
      match req.proofofwork with
      | some pw => if pw.required then solvePow pw.seed pw.difficulty
                   else none
      | none => none)
  else (none, none)

/-- api_client.py chatgpt_api_prompt: cookie extraction, then auth, then
requirements and optional challenge solving, then the conversation POST,
whose result dict gains the cookies_used count. The external steps
(cookie extraction, the two HTTP calls, the solver run and the
conversation call) enter as parameters; everything in between is the
control flow of the source. A failed requirements response does not return:
the chain proceeds to the conversation call with no tokens. -/
def chatgpt_api_prompt (extract : Except String (List (String × String)))
    (auth : AuthOutcome) (req : ReqOutcome)
    (solvePow : String → String → Option String)
    (conv : Option String → Option String → PyDict) : PyDict :=
  match extract with
  | .error e =>
      [("success", .pybool false),
       ("error", .pystr ("Cookie extraction failed: " ++ e))]
  | .ok cookies =>
      if cookies.isEmpty then
        [("success", .pybool false),
         ("error", .pystr "No ChatGPT cookies found. Log into ChatGPT in Chrome first.")]
      else
        match auth with
        | .err e =>
            [("success", .pybool false),
             ("error", .pystr ("Auth failed: " ++ e))]
        | .ok _ =>
            conv (chainTokens req solvePow).1 (chainTokens req solvePow).2
              ++ [("cookies_used", .pynat cookies.length)]

/-- The argparse fields that drive prompt-mode routing in main
(chatgpt.py lines 2427-2488); absent list arguments are the empty list
and absent string arguments are none, matching their falsiness. -/
structure Args where
  mode : String
  prompt : String
  file : List String
  image : List String
  continue_chat : Option String
  project : Option String
  temp_chat : Bool
  search : Bool
  no_search : Bool
  show_browser : Bool
  screenshot : Option String
deriving DecidableEq, Repr

/-- chatgpt.py line 2427: the merged attachment list. -/
def all_files (a : Args) : List String :=
  a.file ++ a.image

/-- chatgpt.py lines 2432-2436: the request needs a browser-only
capability. -/
def browser_only (a : Args) : Bool :=
  !(all_files a).isEmpty || optTruthy a.continue_chat
    || optTruthy a.project || a.temp_chat || a.search || a.no_search
    || a.show_browser || optTruthy a.screenshot

/-- chatgpt.py lines 2438-2442: the fast HTTP transport is eligible. -/
def use_api (a : Args) : Bool :=
  (a.mode == "api" || a.mode == "auto") && !browser_only a
    && a.prompt != ""

/-- Which transport a step of the routing runs. -/
inductive Transport where
  | api : Transport
  | browser : Transport
deriving DecidableEq, Repr

/-- chatgpt.py lines 2444-2488: prompt-mode routing. The two transports
are external (their result dicts are parameters); the returned pair is
the ordered list of transports actually run and the final result dict.
Under use_api, a result whose success field is falsy falls back to the
browser exactly when mode is auto; otherwise the api result stands. With
use_api false the browser transport runs directly (after, at most, a
verbose warning log when mode is api). -/
def mainPromptRoute (a : Args) (apiResult browserResult : PyDict) :
    List Transport × PyDict :=
  if use_api a then
    if !getTruthy apiResult "success" && (a.mode == "auto") then
      ([.api, .browser], browserResult)
    else
      ([.api], apiResult)
  else
    ([.browser], browserResult)

/-- A conversation step that succeeds regardless of the tokens attached:
models a server that accepts the request without sentinel headers. -/
def convOk : Option String → Option String → PyDict :=
  fun _ _ => [("success", .pybool true), ("response", .pystr "4")]

/-- A failed requirements negotiation (non-200 response: success false,
no token). -/
def c4ReqFail : ReqOutcome :=
  { success := false, token := none, proofofwork := none }

/-- Auto-mode prompt arguments with no browser-only capability. -/
def c4Args : Args :=
  { mode := "auto", prompt := "hi", file := [], image := [],
    continue_chat := none, project := none, temp_chat := false,
    search := false, no_search := false, show_browser := false,
    screenshot := none }

/-- The fast-path result when cookies and auth succeed, the requirements
negotiation fails, and the conversation call nevertheless succeeds. -/
def c4ApiResult : PyDict :=
  chatgpt_api_prompt (.ok [("session-cookie", "x")]) (.ok "bearer")
    c4ReqFail (fun _ _ => none) convOk

/-- Claim C4, counterexample: under policy auto, a non-200 response from
the requirements negotiation does not trigger the browser fallback: the
chain swallows the failure, proceeds to the conversation call without
tokens, and when that call succeeds the api transport alone runs and
returns success — the browser transport is never invoked, contradicting
that every failure of any chain step triggers the fallback. -/
theorem c4_requirements_failure_no_fallback :
    c4ReqFail.success = false ∧
    c4ApiResult.lookup "success" = some (.pybool true) ∧
    mainPromptRoute c4Args c4ApiResult [("success", .pybool false)]
      = ([.api], c4ApiResult) :=
  ⟨rfl, rfl, rfl⟩

/-- Claim C4, amended: under policy auto, any fast-path run whose result
has a falsy success field triggers the browser fallback exactly once,
with no re-attempt of the fast path (the transport trace is api then
browser); a failed session authentication produces such a failing
result; but a failed requirements negotiation does not abort the chain —
the conversation is attempted with no tokens and fallback occurs only if
that attempt itself fails — and an unsolved challenge likewise proceeds
with only the requirements token attached. -/
theorem c4_auto_fallback_once :
    (∀ (a : Args) (apiR bR : PyDict), use_api a = true → a.mode = "auto" →
      getTruthy apiR "success" = false →
      mainPromptRoute a apiR bR = ([.api, .browser], bR)) ∧
    (∀ (cookies : List (String × String)) (e : String) (req : ReqOutcome)
        (solvePow : String → String → Option String)
        (conv : Option String → Option String → PyDict),
      cookies ≠ [] →
      chatgpt_api_prompt (.ok cookies) (.err e) req solvePow conv
        = [("success", .pybool false),
           ("error", .pystr ("Auth failed: " ++ e))]) ∧
    (∀ (cookies : List (String × String)) (tok : String) (req : ReqOutcome)
        (solvePow : String → String → Option String)
        (conv : Option String → Option String → PyDict),
      cookies ≠ [] → req.success = false →
      chatgpt_api_prompt (.ok cookies) (.ok tok) req solvePow conv
        = conv none none ++ [("cookies_used", .pynat cookies.length)]) ∧
    (∀ (cookies : List (String × String)) (tok t : String)
        (pw : PowInfo)
        (conv : Option String → Option String → PyDict),
      cookies ≠ [] → t ≠ "" → pw.required = true →
      chatgpt_api_prompt (.ok cookies) (.ok tok)
          { success := true, token := some t, proofofwork := some pw }
          (fun _ _ => none) conv
        = conv (some t) none
            ++ [("cookies_used", .pynat cookies.length)]) := by
  refine ⟨?_, ?_, ?_, ?_⟩
  · intro a apiR bR hu hm hs
    simp [mainPromptRoute, hu, hm, hs]
  · intro cookies e req solvePow conv hc
    simp [chatgpt_api_prompt, List.isEmpty_iff, hc]
  · intro cookies tok req solvePow conv hc hr
    simp [chatgpt_api_prompt, chainTokens, List.isEmpty_iff, hc, hr]
  · intro cookies tok t pw conv hc ht hpw
    simp [chatgpt_api_prompt, chainTokens, List.isEmpty_iff, hc, ht, hpw,
      optTruthy]

/-- Witness for c4_auto_fallback_once with concrete arguments, cookie
lists, outcomes and conversation steps for each of the four parts. -/
theorem c4_auto_fallback_once_witness :
    mainPromptRoute c4Args [("success", .pybool false)]
        [("resp", .pystr "b")]
      = ([.api, .browser], [("resp", .pystr "b")]) ∧
    chatgpt_api_prompt (.ok [("a", "b")]) (.err "boom") c4ReqFail
        (fun _ _ => none) convOk
      = [("success", .pybool false),
         ("error", .pystr ("Auth failed: " ++ "boom"))] ∧
    chatgpt_api_prompt (.ok [("a", "b")]) (.ok "bearer") c4ReqFail
        (fun _ _ => none) convOk
      = convOk none none ++ [("cookies_used", .pynat 1)] ∧
    chatgpt_api_prompt (.ok [("a", "b")]) (.ok "bearer")
        { success := true, token := some "tkn",
          proofofwork := some { required := true, seed := "s",
                                difficulty := "ff" } }
        (fun _ _ => none) convOk
      = convOk (some "tkn") none ++ [("cookies_used", .pynat 1)] :=
  ⟨c4_auto_fallback_once.1 c4Args [("success", .pybool false)]
      [("resp", .pystr "b")] rfl rfl rfl,
   c4_auto_fallback_once.2.1 [("a", "b")] "boom" c4ReqFail
     (fun _ _ => none) convOk (by decide),
   c4_auto_fallback_once.2.2.1 [("a", "b")] "bearer" c4ReqFail
     (fun _ _ => none) convOk (by decide) rfl,
   c4_auto_fallback_once.2.2.2 [("a", "b")] "bearer" "tkn"
     { required := true, seed := "s", difficulty := "ff" } convOk
     (by decide) (by decide) rfl⟩

/-- Prompt arguments that force the fast path by mode while using an
attachment, a browser-only capability. -/
def c5Args : Args :=
  { mode := "api", prompt := "hi", file := ["doc.txt"], image := [],
    continue_chat := none, project := none, temp_chat := false,
    search := false, no_search := false, show_browser := false,
    screenshot := none }

/-- Claim C5, counterexample: with mode api and a file attachment the
run is not rejected as a configuration error: routing proceeds to the
browser transport (after at most a verbose warning log) and returns the
browser result, which here succeeds. No error result is surfaced and
network activity (the browser transport run) does take place. -/
theorem c5_forced_api_not_rejected :
    c5Args.mode = "api" ∧ browser_only c5Args = true ∧
    mainPromptRoute c5Args [("success", .pybool false)]
        [("success", .pybool true), ("response", .pystr "ok")]
      = ([.browser],
         [("success", .pybool true), ("response", .pystr "ok")]) :=
  ⟨rfl, rfl, rfl⟩

/-- Claim C5, amended: when the request uses any automation-only
capability and mode is api, the run is not rejected: the routing
silently runs the browser transport (logging a warning only in verbose
mode) and returns its result. -/
theorem c5_forced_api_uses_browser (a : Args) (apiR bR : PyDict)
    (_hm : a.mode = "api") (hb : browser_only a = true) :
    mainPromptRoute a apiR bR = ([.browser], bR) := by
  have hu : use_api a = false := by simp [use_api, hb]
  simp [mainPromptRoute, hu]

/-- Witness for c5_forced_api_uses_browser at the attachment-bearing
forced-api arguments. -/
theorem c5_forced_api_uses_browser_witness :
    mainPromptRoute c5Args [("success", .pybool false)]
        [("success", .pybool true)]
      = ([.browser], [("success", .pybool true)]) :=
  c5_forced_api_uses_browser c5Args [("success", .pybool false)]
    [("success", .pybool true)] rfl rfl

/-- Claim C9: a request with any file or image attachment is a
browser-only request, which makes the fast transport ineligible in every
mode, and any browser-only request routes directly to the browser
transport: the api transport never appears in the trace. -/
theorem c9_attachments_force_browser (a : Args) (apiR bR : PyDict) :
    (all_files a ≠ [] → browser_only a = true ∧ use_api a = false) ∧
    (browser_only a = true →
      mainPromptRoute a apiR bR = ([.browser], bR)) := by
  constructor
  · intro hne
    have hb : browser_only a = true := by
      simp [browser_only, List.isEmpty_iff, hne]
    exact ⟨hb, by simp [use_api, hb]⟩
  · intro hb
    have hu : use_api a = false := by simp [use_api, hb]
    simp [mainPromptRoute, hu]

/-- Auto-mode prompt arguments carrying one image attachment. -/
def c9Args : Args :=
  { mode := "auto", prompt := "hi", file := [], image := ["pic.png"],
    continue_chat := none, project := none, temp_chat := false,
    search := false, no_search := false, show_browser := false,
    screenshot := none }

/-- Witness for c9_attachments_force_browser: an auto-mode request with
one image attachment is routed to the browser transport only. -/
theorem c9_attachments_force_browser_witness :
    browser_only c9Args = true ∧
    use_api c9Args = false ∧
    mainPromptRoute c9Args [("success", .pybool true)]
        [("success", .pybool true)]
      = ([.browser], [("success", .pybool true)]) := by
  have h1 := (c9_attachments_force_browser c9Args
    [("success", .pybool true)] [("success", .pybool true)]).1 (by decide)
  exact ⟨h1.1, h1.2,
    (c9_attachments_force_browser c9Args [("success", .pybool true)]
      [("success", .pybool true)]).2 h1.1⟩
